import Mathlib

/-!
Shallow embedding of the resource and cost extraction engine of the
devops-universal-scanner repository, file
src/devops_universal_scanner/core/analyzers/finops/cost_analyzer.py
together with the static data it consumes from
src/devops_universal_scanner/core/data/cost_estimates.py.

Modelling conventions:
- Python floats are modelled as exact rationals. Every price in the static
  tables is a decimal literal with at most five fractional digits, written
  here as `dec n d` = n / 10^d (integer-valued prices are written as integer
  literals). The facts proved below (signs, zero tests, sums, list shapes)
  are insensitive to binary floating point rounding.
- Python dicts that serve as records become structures with Option fields
  for keys that are present only on some records; dicts that serve as maps
  become association lists in insertion order (Python dicts preserve
  insertion order, which matters for `next(iter(cost_data.values()))`).
- The regular expression based text scanning is embedded as character list
  scanners that follow the backtracking semantics of the Python `re` module
  on the concrete patterns used by the source (leftmost match, greedy
  quantifiers, no backtracking into a quantifier once the tail matched).
- The process global `yaml.SafeLoader` multi-constructor registry is
  modelled as a Bool (whether a handler for the tag prefix is registered)
  threaded through the entry points that mutate it.
- YAML / JSON parsing of CloudFormation templates is external to the
  analyzer (the `yaml` / `json` libraries); the parsers are parameters of
  type String -> Option CFValue, and a parse failure (an exception in the
  source) is `none`.
-/

/-- Decimal rational literal: `dec n d` is n / 10^d, used to transcribe the
price table entries exactly. -/
def dec (n : Int) (d : Nat) : Rat := n / 10 ^ d

/-- Python substring containment (the `in` operator on strings), on char
lists. -/
def isSubstring (needle : List Char) : List Char → Bool
  | [] => needle.isEmpty
  | c :: cs => needle.isPrefixOf (c :: cs) || isSubstring needle cs

/-- Value of one entry of a price table: either a flat monthly price or a
table keyed by instance/size/tier string (a nested Python dict). -/
inductive CostEntry where
  | scalar : Rat → CostEntry
  | table : List (String × Rat) → CostEntry

/-- AWS_COST_ESTIMATES from cost_estimates.py, in source insertion order.
Only this table is consulted by the cost computation (_get_resource_cost_detailed
and _get_ebs_cost_detailed look up AWS_COST_ESTIMATES only; the Azure and GCP
tables are imported by the analyzer but never read on the cost path, so Azure
and GCP resources always miss and cost 0). -/
def AWS_COST_ESTIMATES : List (String × CostEntry) :=
  [(("aws_instance"), CostEntry.table
      [(("t2.micro"), dec 850 2), (("t2.small"), dec 1679 2),
       (("t2.medium"), dec 3358 2), (("t2.large"), dec 6716 2),
       (("t3.micro"), dec 759 2), (("t3.small"), dec 1518 2),
       (("t3.medium"), dec 3037 2), (("t3.large"), dec 6074 2),
       (("t3.xlarge"), dec 12147 2), (("t3.2xlarge"), dec 24294 2),
       (("m5.large"), dec 6935 2), (("m5.xlarge"), dec 13870 2),
       (("m5.2xlarge"), dec 27740 2), (("m5.4xlarge"), dec 55480 2),
       (("m5.8xlarge"), dec 110960 2),
       (("c5.large"), dec 6184 2), (("c5.xlarge"), dec 12369 2),
       (("c5.2xlarge"), dec 24738 2), (("c5.4xlarge"), dec 49476 2),
       (("r5.large"), dec 9125 2), (("r5.xlarge"), dec 18250 2),
       (("r5.2xlarge"), 365),
       (("p3.2xlarge"), dec 220416 2), (("p3.8xlarge"), dec 881664 2),
       (("p3.16xlarge"), dec 1763328 2), (("p4d.24xlarge"), dec 2332080 2),
       (("g4dn.xlarge"), dec 38088 2), (("g4dn.2xlarge"), dec 54384 2),
       (("g5.xlarge"), dec 76608 2), (("g5.2xlarge"), dec 93264 2)]),
   (("aws_ecs_cluster"), CostEntry.scalar 0),
   (("aws_ecs_service"), CostEntry.scalar 0),
   (("aws_ecs_task_definition"), CostEntry.scalar 0),
   (("fargate"), CostEntry.table
      [(("0.25_vCPU_0.5_GB"), dec 1097 2), (("0.5_vCPU_1_GB"), dec 2194 2),
       (("1_vCPU_2_GB"), dec 4388 2), (("2_vCPU_4_GB"), dec 8776 2),
       (("4_vCPU_8_GB"), dec 17552 2)]),
   (("aws_db_instance"), CostEntry.table
      [(("db.t2.micro"), dec 1241 2), (("db.t2.small"), dec 2482 2),
       (("db.t3.micro"), dec 1169 2), (("db.t3.small"), dec 2337 2),
       (("db.t3.medium"), dec 4674 2), (("db.t3.large"), dec 9348 2),
       (("db.m5.large"), dec 11607 2), (("db.m5.xlarge"), dec 23214 2),
       (("db.m5.2xlarge"), dec 46428 2), (("db.r5.large"), dec 17370 2),
       (("db.r5.xlarge"), dec 34740 2), (("db.r5.2xlarge"), dec 69480 2)]),
   (("aws_dynamodb_table"), CostEntry.scalar (dec 25 2)),
   (("aws_ebs_volume"), CostEntry.table
      [(("gp3"), dec 8 2), (("gp2"), dec 10 2), (("io1"), dec 125 3),
       (("io2"), dec 125 3), (("st1"), dec 45 3), (("sc1"), dec 15 3)]),
   (("aws_s3_bucket"), CostEntry.table
      [(("standard"), dec 23 3), (("standard_ia"), dec 125 4),
       (("glacier"), dec 4 3), (("glacier_deep_archive"), dec 99 5)]),
   (("aws_efs_file_system"), CostEntry.scalar (dec 30 2)),
   (("aws_lb"), CostEntry.table
      [(("application"), dec 1643 2), (("network"), dec 1643 2),
       (("gateway"), dec 1643 2)]),
   (("aws_elb"), CostEntry.scalar (dec 1825 2)),
   (("aws_alb"), CostEntry.scalar (dec 1643 2)),
   (("aws_nat_gateway"), CostEntry.scalar (dec 3285 2)),
   (("aws_vpn_connection"), CostEntry.scalar (dec 3650 2)),
   (("aws_vpn_gateway"), CostEntry.scalar (dec 5 2)),
   (("aws_vpc_endpoint"), CostEntry.scalar (dec 730 2)),
   (("aws_transit_gateway"), CostEntry.scalar (dec 3650 2)),
   (("aws_cloudfront_distribution"), CostEntry.scalar (dec 85 3)),
   (("aws_route53_zone"), CostEntry.scalar (dec 50 2)),
   (("aws_route53_record"), CostEntry.scalar 0),
   (("aws_elasticache_cluster"), CostEntry.table
      [(("cache.t2.micro"), dec 1241 2), (("cache.t2.small"), dec 2482 2),
       (("cache.t3.micro"), dec 1169 2), (("cache.t3.small"), dec 2337 2),
       (("cache.m5.large"), dec 11607 2), (("cache.m5.xlarge"), dec 23214 2),
       (("cache.r5.large"), dec 17370 2)]),
   (("aws_lambda_function"), CostEntry.scalar (dec 20 2)),
   (("aws_eks_cluster"), CostEntry.scalar 73),
   (("aws_eks_node_group"), CostEntry.scalar 0),
   (("aws_eks_fargate_profile"), CostEntry.scalar 0),
   (("aws_ecr_repository"), CostEntry.scalar (dec 10 2)),
   (("aws_sagemaker_notebook_instance"), CostEntry.table
      [(("ml.t2.medium"), dec 3358 2), (("ml.t3.medium"), dec 3037 2),
       (("ml.m5.large"), dec 8322 2), (("ml.m5.xlarge"), dec 16646 2),
       (("ml.p3.2xlarge"), dec 220416 2)]),
   (("aws_redshift_cluster"), CostEntry.table
      [(("dc2.large"), dec 18250 2), (("dc2.8xlarge"), 3650),
       (("ra3.xlplus"), dec 99792 2), (("ra3.4xlarge"), 2394)]),
   (("aws_opensearch_domain"), CostEntry.table
      [(("t3.small.search"), dec 2774 2), (("t3.medium.search"), dec 5548 2),
       (("m5.large.search"), dec 10074 2), (("r5.large.search"), dec 14570 2)]),
   (("aws_elasticsearch_domain"), CostEntry.table
      [(("t3.small.search"), dec 2774 2), (("t3.medium.search"), dec 5548 2),
       (("m5.large.search"), dec 10074 2), (("r5.large.search"), dec 14570 2)]),
   (("aws_msk_cluster"), CostEntry.table
      [(("kafka.t3.small"), dec 3650 2), (("kafka.m5.large"), 146),
       (("kafka.m5.xlarge"), 292)]),
   (("aws_emr_cluster"), CostEntry.table
      [(("m5.xlarge"), 27), (("m5.2xlarge"), 54)]),
   (("aws_kinesis_stream"), CostEntry.scalar (dec 1095 2)),
   (("aws_kinesis_firehose_delivery_stream"), CostEntry.scalar (dec 29 3)),
   (("aws_api_gateway_rest_api"), CostEntry.scalar (dec 350 2)),
   (("aws_apigatewayv2_api"), CostEntry.scalar 1),
   (("aws_sfn_state_machine"), CostEntry.scalar 25),
   (("aws_cloudwatch_log_group"), CostEntry.scalar (dec 50 2)),
   (("aws_sns_topic"), CostEntry.scalar (dec 50 2)),
   (("aws_sqs_queue"), CostEntry.scalar (dec 40 2)),
   (("aws_secretsmanager_secret"), CostEntry.scalar (dec 40 2)),
   (("aws_iam_role"), CostEntry.scalar 0),
   (("aws_iam_policy"), CostEntry.scalar 0),
   (("aws_iam_user"), CostEntry.scalar 0),
   (("aws_iam_group"), CostEntry.scalar 0),
   (("aws_security_group"), CostEntry.scalar 0),
   (("aws_security_group_rule"), CostEntry.scalar 0),
   (("aws_vpc"), CostEntry.scalar 0),
   (("aws_subnet"), CostEntry.scalar 0),
   (("aws_internet_gateway"), CostEntry.scalar 0),
   (("aws_route_table"), CostEntry.scalar 0),
   (("aws_cloudformation_stack"), CostEntry.scalar 0)]

/-- COST_WARNING_THRESHOLDS from cost_estimates.py (monthly USD). -/
def COST_WARNING_THRESHOLDS : List (String × Rat) :=
  [(("low"), 100), (("medium"), 500), (("high"), 1000), (("critical"), 5000)]

/-- Keyed access COST_WARNING_THRESHOLDS[k] (every key used is present). -/
def cost_threshold (k : String) : Rat :=
  (COST_WARNING_THRESHOLDS.lookup k).getD 0

/-- AIML_RESOURCE_PATTERNS["gpu_instances"] from cost_estimates.py. -/
def AIML_GPU_INSTANCE_PATTERNS : List String :=
  [("p2."), ("p3."), ("p4."), ("g3."), ("g4."), ("g5.")]

/-- is_gpu_instance from cost_estimates.py: case insensitive substring match
of the instance type against the GPU family prefixes; an empty (falsy)
argument yields false. -/
def is_gpu_instance (instance_type : String) : Bool :=
  if instance_type = "" then false
  else AIML_GPU_INSTANCE_PATTERNS.any
    (fun pattern =>
      isSubstring pattern.toList (instance_type.toList.map Char.toLower))

/-- Scalar tree of a parsed CloudFormation template (the result of
yaml.safe_load / json.loads). Maps are association lists in document order. -/
inductive CFValue where
  | null : CFValue
  | bool : Bool → CFValue
  | num : Int → CFValue
  | str : String → CFValue
  | list : List CFValue → CFValue
  | map : List (String × CFValue) → CFValue

/-- Python str() of a scalar CFValue. The list and map branches are
placeholders (Python would render their repr); every theorem below that
converts a value guards it with CFValue.isScalar, so the placeholder
branches are never relied upon. -/
def cfToStr : CFValue → String
  | CFValue.str s => s
  | CFValue.num n => toString n
  | CFValue.bool true => ("True")
  | CFValue.bool false => ("False")
  | CFValue.null => ("None")
  | CFValue.list _ => ""
  | CFValue.map _ => ""

/-- Scalar test for CFValue (string, number, boolean or null). -/
def CFValue.isScalar : CFValue → Bool
  | CFValue.str _ => true
  | CFValue.num _ => true
  | CFValue.bool _ => true
  | CFValue.null => true
  | CFValue.list _ => false
  | CFValue.map _ => false

/-- One resource record of the analyzer pipeline: the Python dicts appended
by _extract_terraform_resources / _extract_cloudformation_resources and
their sub-resource helpers. Keys present only on some records are Option
fields; _calculate_costs reads absent keys through dict.get defaults. -/
structure Resource where
  type : String
  name : String
  instance_type : Option String
  body : String
  properties : List (String × CFValue)
  cf_type : Option String
  volume_size : Option Nat
  volume_type : Option String
  disk_size_gb : Option Nat
  storage_type : Option String
  disk_type : Option String

/-- Record appended by the Terraform extraction loop for a matched resource
block (keys: type, name, instance_type, body). -/
def mkTfResource (type name : String) (instance_type : Option String)
    (body : String) : Resource :=
  ⟨type, name, instance_type, body, [], none, none, none, none, none, none⟩

/-- Record appended by _extract_aws_ebs_from_terraform for a discovered
volume block (type aws_ebs_volume, empty body, volume_size / volume_type). -/
def mkTfEbsResource (name : String) (volume_size : Nat)
    (volume_type : String) : Resource :=
  ⟨("aws_ebs_volume"), name, none, "", [], none, some volume_size,
   some volume_type, none, none, none⟩

/-- Record appended by _extract_azure_disks (type azurerm_managed_disk,
disk_size_gb / storage_type). -/
def mkAzureDiskResource (name : String) (disk_size_gb : Nat)
    (storage_type : String) : Resource :=
  ⟨("azurerm_managed_disk"), name, none, "", [], none, none, none,
   some disk_size_gb, some storage_type, none⟩

/-- Record appended by _extract_gcp_disks (type google_compute_disk,
disk_size_gb / disk_type). -/
def mkGcpDiskResource (name : String) (disk_size_gb : Nat)
    (disk_type : String) : Resource :=
  ⟨("google_compute_disk"), name, none, "", [], none, none, none,
   some disk_size_gb, none, some disk_type⟩

/-- Record appended by the CloudFormation extraction loop for a template
resource (keys: type, name, instance_type, properties, cf_type). -/
def mkCfResource (type name : String) (instance_type : Option String)
    (properties : List (String × CFValue)) (cf_type : String) : Resource :=
  ⟨type, name, instance_type, "", properties, some cf_type, none, none,
   none, none, none⟩

/-- Record appended by the CloudFormation extraction loop for an EBS volume
synthesized from a BlockDeviceMappings entry. -/
def mkCfEbsResource (name : String) (volume_size : Nat)
    (volume_type : String) : Resource :=
  ⟨("aws_ebs_volume"), name, none, "",
   [(("VolumeSize"), CFValue.num (Int.ofNat volume_size)),
    (("VolumeType"), CFValue.str volume_type)],
   some ("AWS::EC2::Volume"), some volume_size, some volume_type,
   none, none, none⟩

/-- One named component of a detailed cost breakdown; only the monthly
figure is modelled (descriptions, rates and notes are report text). -/
structure CostComponent where
  name : String
  monthly_cost : Rat

/-- The CostBreakdown dataclass of cost_analyzer.py. -/
structure CostBreakdown where
  resource_name : String
  resource_type : String
  instance_type : Option String
  monthly_cost : Rat
  weekly_cost : Rat
  daily_cost : Rat
  hourly_cost : Rat
  cost_category : String
  is_gpu : Bool
  notes : String
  cost_components : Option (List CostComponent)
  is_free_service : Bool

/-- The free_services list of CostAnalyzer._is_free_aws_service, verbatim. -/
def free_services : List String :=
  [("AWS::EC2::SecurityGroup"),
   ("AWS::IAM::Role"),
   ("AWS::IAM::Policy"),
   ("AWS::IAM::User"),
   ("AWS::IAM::Group"),
   ("AWS::IAM::InstanceProfile"),
   ("AWS::EC2::RouteTable"),
   ("AWS::EC2::Route"),
   ("AWS::EC2::SubnetRouteTableAssociation"),
   ("AWS::EC2::VPCGatewayAttachment"),
   ("AWS::CloudWatch::Alarm"),
   ("AWS::Logs::LogGroup")]

/-- CostAnalyzer._is_free_aws_service: membership of the CloudFormation
type string in the free services list. -/
def is_free_aws_service (cf_type : String) : Bool :=
  free_services.contains cf_type

/-- The explicit CloudFormation-to-internal type mapping of
CostAnalyzer._convert_cf_type_to_internal, verbatim. -/
def CF_TYPE_MAPPING : List (String × String) :=
  [(("AWS::EC2::Instance"), ("aws_instance")),
   (("AWS::RDS::DBInstance"), ("aws_db_instance")),
   (("AWS::ElasticLoadBalancingV2::LoadBalancer"), ("aws_lb")),
   (("AWS::ElasticLoadBalancing::LoadBalancer"), ("aws_elb")),
   (("AWS::EC2::NatGateway"), ("aws_nat_gateway")),
   (("AWS::EC2::Volume"), ("aws_ebs_volume")),
   (("AWS::S3::Bucket"), ("aws_s3_bucket")),
   (("AWS::VPN::Connection"), ("aws_vpn_connection")),
   (("AWS::ElastiCache::CacheCluster"), ("aws_elasticache_cluster")),
   (("AWS::Lambda::Function"), ("aws_lambda_function")),
   (("AWS::EKS::Cluster"), ("aws_eks_cluster")),
   (("AWS::SageMaker::NotebookInstance"), ("aws_sagemaker_notebook_instance")),
   (("AWS::EC2::SecurityGroup"), ("aws_security_group")),
   (("AWS::IAM::Role"), ("aws_iam_role")),
   (("AWS::IAM::Policy"), ("aws_iam_policy")),
   (("AWS::IAM::User"), ("aws_iam_user")),
   (("AWS::IAM::Group"), ("aws_iam_group"))]

/-- CostAnalyzer._convert_cf_type_to_internal: mapped value, else the
lower-cased CloudFormation type. -/
def convert_cf_type_to_internal (cf_type : String) : String :=
  match CF_TYPE_MAPPING.lookup cf_type with
  | some v => v
  | none => String.mk (cf_type.toList.map Char.toLower)

/-- Branch of CostAnalyzer._get_resource_cost_detailed taken for a size
keyed price table when no (truthy) instance type is given: the standard
tier times an assumed 100 GB, else the first table value times 100, else
cost 0 for an empty table. -/
def table_no_size_cost (t : List (String × Rat)) :
    Rat × Option (List CostComponent) :=
  match t.lookup ("standard") with
  | some s => (s * 100, none)
  | none =>
    match t with
    | [] => (0, none)
    | p :: _ => (p.2 * 100, none)

/-- CostAnalyzer._get_resource_cost_detailed. The aws_s3_bucket special
case precedes the generic dict handling exactly as in the source; a falsy
(absent or empty) instance type takes the no-size branch. The scalar
branch inside the s3 case is unreachable (aws_s3_bucket maps to a table)
and repeats the dict.get default. -/
def get_resource_cost_detailed (resource_type : String)
    (instance_type : Option String) : Rat × Option (List CostComponent) :=
  match AWS_COST_ESTIMATES.lookup resource_type with
  | none => (0, none)
  | some cost_data =>
    if resource_type = ("aws_s3_bucket") then
      let storage_rate :=
        match cost_data with
        | CostEntry.table t => (t.lookup ("standard")).getD (dec 23 3)
        | CostEntry.scalar _ => dec 23 3
      let storage_cost := storage_rate * 100
      (storage_cost,
       some [⟨("storage"), storage_cost⟩, ⟨("requests"), 0⟩,
             ⟨("data_transfer"), 0⟩])
    else
      match cost_data with
      | CostEntry.table t =>
        match instance_type with
        | some it =>
          if it = "" then table_no_size_cost t
          else
            let cost := (t.lookup it).getD 0
            (cost, some [⟨("compute"), cost⟩])
        | none => table_no_size_cost t
      | CostEntry.scalar c => (c, some [⟨("service"), c⟩])

/-- CostAnalyzer._get_ebs_cost_detailed: price per GB for the volume type
(missing type prices at 0) times the volume size. The table for
aws_ebs_volume is present and non-empty, so the falsy-dict early return
of the source is the empty-table branch here. -/
def get_ebs_cost_detailed (volume_type : String) (volume_size : Nat) :
    Rat × Option (List CostComponent) :=
  match AWS_COST_ESTIMATES.lookup ("aws_ebs_volume") with
  | some (CostEntry.table t) =>
    match t with
    | [] => (0, none)
    | _ :: _ =>
      let price_per_gb := (t.lookup volume_type).getD 0
      let monthly_cost := price_per_gb * (volume_size : Rat)
      (monthly_cost, some [⟨("storage"), monthly_cost⟩])
  | _ => (0, none)

/-- CostAnalyzer._determine_cost_category. -/
def determine_cost_category (monthly_cost : Rat) : String :=
  if cost_threshold ("critical") ≤ monthly_cost then ("critical")
  else if cost_threshold ("high") ≤ monthly_cost then ("high")
  else if cost_threshold ("medium") ≤ monthly_cost then ("medium")
  else if cost_threshold ("low") ≤ monthly_cost then ("low")
  else ("minimal")

/-- Free service test applied per resource inside _calculate_costs: the
cf_type key read with default "" (Terraform records carry no cf_type, so
the empty default is falsy and the free check is skipped). -/
def resource_is_free (r : Resource) : Bool :=
  let cf_type := r.cf_type.getD ""
  if cf_type = "" then false
  else is_free_aws_service cf_type

/-- Cost dispatch inside the _calculate_costs loop: EBS volume records go
through _get_ebs_cost_detailed with volume_size default 0 and volume_type
default gp2; everything else through _get_resource_cost_detailed. -/
def resource_cost (r : Resource) : Rat × Option (List CostComponent) :=
  if r.type = ("aws_ebs_volume") then
    get_ebs_cost_detailed (r.volume_type.getD ("gp2")) (r.volume_size.getD 0)
  else
    get_resource_cost_detailed r.type r.instance_type

/-- Body of the _calculate_costs loop for one resource record: a breakdown
is produced only when the monthly cost is positive or the record is a free
service; weekly, daily and hourly figures are the fixed divisors of the
source; the cost category of a free service is the string free; the GPU
flag is is_gpu_instance of the instance type (None read as ""). -/
def costBreakdownOf (r : Resource) : Option CostBreakdown :=
  if 0 < (resource_cost r).1 ∨ resource_is_free r = true then
    some ⟨r.name, r.type, r.instance_type, (resource_cost r).1,
          (resource_cost r).1 / dec 433 2, (resource_cost r).1 / 30,
          (resource_cost r).1 / 730,
          (if resource_is_free r then ("free")
           else determine_cost_category (resource_cost r).1),
          is_gpu_instance (r.instance_type.getD ("")),
          (if resource_is_free r then ("No charge (AWS managed service)")
           else ("Approximate cost in US East region")),
          (resource_cost r).2, resource_is_free r⟩
  else none

/-- CostAnalyzer._calculate_costs, the returned list: the per-resource loop
in source order. -/
def calculate_costs (resources : List Resource) : List CostBreakdown :=
  resources.filterMap costBreakdownOf

/-- Mutable per-instance state of a CostAnalyzer object. -/
structure CostAnalyzer where
  resources : List Resource
  cost_breakdowns : List CostBreakdown
  total_monthly_cost : Rat

/-- CostAnalyzer.__init__. -/
def CostAnalyzer.init : CostAnalyzer := ⟨[], [], 0⟩

/-- CostAnalyzer._calculate_costs including its writes to self: it stores
the breakdown list and the sum of the monthly costs over exactly that
list, and returns the list. -/
def CostAnalyzer.calculate_costs_state (a : CostAnalyzer)
    (resources : List Resource) : List CostBreakdown × CostAnalyzer :=
  let cbs := calculate_costs resources
  (cbs, ⟨a.resources, cbs, (cbs.map CostBreakdown.monthly_cost).sum⟩)

/-- CostAnalyzer.get_total_monthly_cost. -/
def CostAnalyzer.get_total_monthly_cost (a : CostAnalyzer) : Rat :=
  a.total_monthly_cost

/-- Opening brace character (written via its code point so that brace
characters appear nowhere in the source text of this file). -/
def lbrace : Char := Char.ofNat 123

/-- Closing brace character. -/
def rbrace : Char := Char.ofNat 125

/-- Whitespace class of the Python re module (the characters matched by
a backslash-s atom in ASCII), used by all the patterns below. -/
def isPySpace (c : Char) : Bool :=
  c = ' ' || c = '\t' || c = '\n' || c = '\x0d' || c = '\x0b' || c = '\x0c'

/-- Consume one expected character. -/
def expectChar (c : Char) : List Char → Option (List Char)
  | [] => none
  | x :: xs => if x = c then some xs else none

/-- Consume an exact literal (case sensitive). -/
def dropLit : List Char → List Char → Option (List Char)
  | [], cs => some cs
  | _ :: _, [] => none
  | l :: ls, c :: cs => if c = l then dropLit ls cs else none

/-- Consume an exact literal case-insensitively (re.IGNORECASE). -/
def dropLitCI : List Char → List Char → Option (List Char)
  | [], cs => some cs
  | _ :: _, [] => none
  | l :: ls, c :: cs => if c.toLower = l.toLower then dropLitCI ls cs else none

/-- Greedy nonempty character-class match (a plus-quantified class): the
maximal run satisfying p, failing when it is empty. -/
def takeWhile1 (p : Char → Bool) (cs : List Char) :
    Option (List Char × List Char) :=
  match cs.takeWhile p with
  | [] => none
  | t => some (t, cs.dropWhile p)

/-- Digit run to a natural number. -/
def digitsToNat (ds : List Char) : Nat :=
  ds.foldl (fun acc c => acc * 10 + (c.toNat - 48)) 0

/-- Leftmost search: try an at-position matcher at every successive start
position, as re.search does. -/
def searchAux {α : Type} (m : List Char → Option α) : List Char → Option α
  | [] => m []
  | c :: cs =>
    match m (c :: cs) with
    | some r => some r
    | none => searchAux m cs

/-- At-position match of the resource declaration pattern of
_extract_terraform_resources. On the concrete pattern the body group
always ends at the first closing brace after the opening brace: the
nesting-tolerant alternative inside the pattern can never participate,
because the greedy bracket class also consumes opening braces and the
engine stops at the first overall success. The returned triple is
(type, name, body) plus the unconsumed tail after the match. -/
def matchResourceAt (cs : List Char) :
    Option (String × String × String × List Char) := do
  let cs ← dropLit (String.toList ("resource")) cs
  let ws1 ← takeWhile1 isPySpace cs
  let cs ← expectChar '"' ws1.2
  let ty ← takeWhile1 (fun c => c != '"') cs
  let cs ← expectChar '"' ty.2
  let ws2 ← takeWhile1 isPySpace cs
  let cs ← expectChar '"' ws2.2
  let nm ← takeWhile1 (fun c => c != '"') cs
  let cs ← expectChar '"' nm.2
  let cs := cs.dropWhile isPySpace
  let cs ← expectChar lbrace cs
  let body := cs.takeWhile (fun c => c != rbrace)
  let rest ← expectChar rbrace (cs.dropWhile (fun c => c != rbrace))
  pure (String.mk ty.1, String.mk nm.1, String.mk body, rest)

/-- Non-overlapping leftmost iteration of matchResourceAt (re.finditer):
on a match continue after it, otherwise advance one character. The fuel
is an upper bound on the number of steps; every step strictly shortens
the remaining text, so length + 1 suffices. -/
def scanResources : Nat → List Char → List (String × String × String)
  | 0, _ => []
  | Nat.succ fuel, cs =>
    match matchResourceAt cs with
    | some (t, n, b, rest) => (t, n, b) :: scanResources fuel rest
    | none =>
      match cs with
      | [] => []
      | _ :: tl => scanResources fuel tl

/-- All resource declaration matches of a Terraform source text, in source
order. -/
def find_tf_resources (content : String) : List (String × String × String) :=
  scanResources (content.length + 1) content.toList

/-- At-position match of a key = "value" attribute pattern,
case-insensitively (the patterns of _extract_instance_type run under
re.IGNORECASE). Returns the captured quoted value. -/
def matchKeyEqQuoted (key : List Char) (cs : List Char) : Option String := do
  let cs ← dropLitCI key cs
  let cs := cs.dropWhile isPySpace
  let cs ← expectChar '=' cs
  let cs := cs.dropWhile isPySpace
  let cs ← expectChar '"' cs
  let v ← takeWhile1 (fun c => c != '"') cs
  let _ ← expectChar '"' v.2
  pure (String.mk v.1)

/-- At-position match of a key = "value" attribute pattern, case
sensitively (the volume and disk sub-searches run without flags). -/
def matchKeyEqQuotedCS (key : List Char) (cs : List Char) : Option String := do
  let cs ← dropLit key cs
  let cs := cs.dropWhile isPySpace
  let cs ← expectChar '=' cs
  let cs := cs.dropWhile isPySpace
  let cs ← expectChar '"' cs
  let v ← takeWhile1 (fun c => c != '"') cs
  let _ ← expectChar '"' v.2
  pure (String.mk v.1)

/-- At-position match of a key = digits attribute pattern (case
sensitive), capturing the number. -/
def matchKeyEqNum (key : List Char) (cs : List Char) : Option Nat := do
  let cs ← dropLit key cs
  let cs := cs.dropWhile isPySpace
  let cs ← expectChar '=' cs
  let cs := cs.dropWhile isPySpace
  let v ← takeWhile1 Char.isDigit cs
  pure (digitsToNat v.1)

/-- At-position match of the second pattern of _extract_instance_type:
instance_type = var.NAME with the name captured up to whitespace or a
quote. -/
def matchInstanceTypeVar (cs : List Char) : Option String := do
  let cs ← dropLitCI (String.toList ("instance_type")) cs
  let cs := cs.dropWhile isPySpace
  let cs ← expectChar '=' cs
  let cs := cs.dropWhile isPySpace
  let cs ← dropLitCI (String.toList ("var.")) cs
  let v ← takeWhile1 (fun c => !(isPySpace c) && c != '"') cs
  pure (String.mk v.1)

/-- At-position match of the fifth pattern of _extract_instance_type:
cache. followed by the captured tier. -/
def matchCacheDot (cs : List Char) : Option String := do
  let cs ← dropLitCI (String.toList ("cache.")) cs
  let v ← takeWhile1 (fun c => !(isPySpace c) && c != '"') cs
  pure (String.mk v.1)

/-- CostAnalyzer._extract_instance_type: the five patterns tried in source
order, each searched over the whole body before falling to the next. The
resource type and format arguments are unused in the source as well. -/
def extract_instance_type (resource_body : String) (_resource_type : String)
    (_format_type : String) : Option String :=
  let cs := resource_body.toList
  match searchAux (matchKeyEqQuoted (String.toList ("instance_type"))) cs with
  | some r => some r
  | none =>
  match searchAux matchInstanceTypeVar cs with
  | some r => some r
  | none =>
  match searchAux (matchKeyEqQuoted (String.toList ("db_instance_class"))) cs with
  | some r => some r
  | none =>
  match searchAux (matchKeyEqQuoted (String.toList ("node_type"))) cs with
  | some r => some r
  | none => searchAux matchCacheDot cs

/-- At-position match of a sub-block pattern key followed by a brace group
with a nonempty body free of closing braces (the sub-block regexes use a
plus-quantified negated-brace class). Returns the block body and the tail
after the block. -/
def matchBlockAt (key : List Char) (cs : List Char) :
    Option (List Char × List Char) := do
  let cs ← dropLit key cs
  let cs := cs.dropWhile isPySpace
  let cs ← expectChar lbrace cs
  let body ← takeWhile1 (fun c => c != rbrace) cs
  let rest ← expectChar rbrace body.2
  pure (body.1, rest)

/-- Leftmost single sub-block search (re.search), returning the block
body. -/
def searchBlockBody (key : List Char) (cs : List Char) : Option (List Char) :=
  searchAux (fun u => (matchBlockAt key u).map Prod.fst) cs

/-- Non-overlapping leftmost iteration of sub-block matches (re.finditer),
fuelled like scanResources. -/
def findBlocksAux (key : List Char) : Nat → List Char → List (List Char)
  | 0, _ => []
  | Nat.succ fuel, cs =>
    match matchBlockAt key cs with
    | some p => p.1 :: findBlocksAux key fuel p.2
    | none =>
      match cs with
      | [] => []
      | _ :: tl => findBlocksAux key fuel tl

/-- All sub-block matches for a key, in source order. -/
def findBlocks (key : List Char) (cs : List Char) : List (List Char) :=
  findBlocksAux key (cs.length + 1) cs

/-- CostAnalyzer._extract_aws_ebs_from_terraform: one optional root volume
from the first root_block_device block (emitted only when a volume_size is
found, volume_type defaulting to gp2), then one EBS volume per sized
ebs_block_device block, indexed by enumerate over all matched blocks so an
unsized block still consumes its index. -/
def extract_aws_ebs_from_terraform (resource_body : String)
    (parent_name : String) : List Resource :=
  let cs := resource_body.toList
  let rootPart :=
    match searchBlockBody (String.toList ("root_block_device")) cs with
    | some blk =>
      match searchAux (matchKeyEqNum (String.toList ("volume_size"))) blk with
      | some sz =>
        let vt := (searchAux (matchKeyEqQuotedCS (String.toList ("volume_type"))) blk).getD ("gp2")
        [mkTfEbsResource (parent_name ++ ("_root_volume")) sz vt]
      | none => []
    | none => []
  let ebsPart :=
    ((findBlocks (String.toList ("ebs_block_device")) cs).enum).filterMap
      (fun p =>
        match searchAux (matchKeyEqNum (String.toList ("volume_size"))) p.2 with
        | some sz =>
          let vt := (searchAux (matchKeyEqQuotedCS (String.toList ("volume_type"))) p.2).getD ("gp2")
          some (mkTfEbsResource (parent_name ++ ("_ebs_") ++ toString p.1) sz vt)
        | none => none)
  rootPart ++ ebsPart

/-- CostAnalyzer._extract_azure_disks: first os_disk block (disk_size_gb
required, storage_account_type defaulting to Standard_LRS), then one disk
per sized data_disk block with enumerate indexing. -/
def extract_azure_disks (resource_body : String) (parent_name : String) :
    List Resource :=
  let cs := resource_body.toList
  let osPart :=
    match searchBlockBody (String.toList ("os_disk")) cs with
    | some blk =>
      match searchAux (matchKeyEqNum (String.toList ("disk_size_gb"))) blk with
      | some sz =>
        let st := (searchAux (matchKeyEqQuotedCS (String.toList ("storage_account_type"))) blk).getD ("Standard_LRS")
        [mkAzureDiskResource (parent_name ++ ("_os_disk")) sz st]
      | none => []
    | none => []
  let dataPart :=
    ((findBlocks (String.toList ("data_disk")) cs).enum).filterMap
      (fun p =>
        match searchAux (matchKeyEqNum (String.toList ("disk_size_gb"))) p.2 with
        | some sz =>
          let st := (searchAux (matchKeyEqQuotedCS (String.toList ("storage_account_type"))) p.2).getD ("Standard_LRS")
          some (mkAzureDiskResource (parent_name ++ ("_data_disk_") ++ toString p.1) sz st)
        | none => none)
  osPart ++ dataPart

/-- CostAnalyzer._extract_gcp_disks: first boot_disk block (size required,
type defaulting to pd-standard), then one disk per sized attached_disk
block with enumerate indexing. -/
def extract_gcp_disks (resource_body : String) (parent_name : String) :
    List Resource :=
  let cs := resource_body.toList
  let bootPart :=
    match searchBlockBody (String.toList ("boot_disk")) cs with
    | some blk =>
      match searchAux (matchKeyEqNum (String.toList ("size"))) blk with
      | some sz =>
        let dt := (searchAux (matchKeyEqQuotedCS (String.toList ("type"))) blk).getD ("pd-standard")
        [mkGcpDiskResource (parent_name ++ ("_boot_disk")) sz dt]
      | none => []
    | none => []
  let attachedPart :=
    ((findBlocks (String.toList ("attached_disk")) cs).enum).filterMap
      (fun p =>
        match searchAux (matchKeyEqNum (String.toList ("size"))) p.2 with
        | some sz =>
          let dt := (searchAux (matchKeyEqQuotedCS (String.toList ("type"))) p.2).getD ("pd-standard")
          some (mkGcpDiskResource (parent_name ++ ("_attached_disk_") ++ toString p.1) sz dt)
        | none => none)
  bootPart ++ attachedPart

/-- Azure VM resource types that trigger managed disk extraction. -/
def azure_vm_types : List String :=
  [("azurerm_virtual_machine"), ("azurerm_linux_virtual_machine"),
   ("azurerm_windows_virtual_machine")]

/-- CostAnalyzer._extract_terraform_resources: for every matched resource
declaration append the main record and then any synthesized disk or volume
records, in source order. -/
def extract_terraform_resources (content : String) : List Resource :=
  ((find_tf_resources content).map (fun t =>
    let rtype := t.1
    let rname := t.2.1
    let rbody := t.2.2
    let it := extract_instance_type rbody rtype ("terraform")
    mkTfResource rtype rname it rbody ::
      ((if azure_vm_types.contains rtype then extract_azure_disks rbody rname else []) ++
       (if rtype = ("google_compute_instance") then extract_gcp_disks rbody rname else []) ++
       (if rtype = ("aws_instance") then extract_aws_ebs_from_terraform rbody rname else [])))).flatten

/-- Property keys checked in order by _extract_cf_instance_type. -/
def instance_type_keys : List String :=
  [("InstanceType"), ("DBInstanceClass"), ("NodeType"), ("CacheNodeType")]

/-- Loop of CostAnalyzer._extract_cf_instance_type over the candidate keys.
A value that is a map is treated as an intrinsic: a Ref to a declared
parameter resolves to the str() of its Default when one exists, and every
other map case falls through to the next key (the source reaches the next
iteration either via continue or by running off the end of the branch).
A Ref whose value is not a string cannot occur as a parameter-dict key, and
a parameter whose declaration is not a map would raise in the source on
the Default membership test; both fall through here (no claim exercises
them). A non-map value returns its str(). -/
def cf_instance_type_go (properties parameters : List (String × CFValue)) :
    List String → Option String
  | [] => none
  | key :: rest =>
    match properties.lookup key with
    | none => cf_instance_type_go properties parameters rest
    | some value =>
      match value with
      | CFValue.map m =>
        (match m.lookup ("Ref") with
         | some (CFValue.str param_name) =>
           (match parameters.lookup param_name with
            | some (CFValue.map param_config) =>
              (match param_config.lookup ("Default") with
               | some d => some (cfToStr d)
               | none => cf_instance_type_go properties parameters rest)
            | some _ => cf_instance_type_go properties parameters rest
            | none => cf_instance_type_go properties parameters rest)
         | some _ => cf_instance_type_go properties parameters rest
         | none => cf_instance_type_go properties parameters rest)
      | v => some (cfToStr v)

/-- CostAnalyzer._extract_cf_instance_type. -/
def extract_cf_instance_type (properties parameters : List (String × CFValue)) :
    Option String :=
  cf_instance_type_go properties parameters instance_type_keys

/-- Resource types whose BlockDeviceMappings are scanned for embedded EBS
volumes, verbatim from _extract_cloudformation_resources. -/
def resources_with_block_devices : List String :=
  [("AWS::EC2::Instance"), ("AWS::AutoScaling::LaunchConfiguration"),
   ("AWS::EC2::LaunchTemplate"), ("AWS::Batch::ComputeEnvironment")]

/-- BlockDeviceMappings walk of _extract_cloudformation_resources for one
template resource: launch templates read the list from LaunchTemplateData,
every other listed type reads it directly; each enumerate-indexed mapping
with an Ebs map and a positive integer VolumeSize yields one synthesized
EBS volume record (VolumeType defaulting to gp2). Non-integer sizes and
non-string types are template malformations that would raise or misbehave
in the source and are read through their dict.get defaults here. -/
def cf_block_device_resources (resource_name : String)
    (cf_resource_type : String) (properties : List (String × CFValue)) :
    List Resource :=
  if resources_with_block_devices.contains cf_resource_type then
    let direct :=
      match properties.lookup ("BlockDeviceMappings") with
      | some (CFValue.list l) => l
      | _ => []
    let block_devices :=
      if cf_resource_type = ("AWS::EC2::LaunchTemplate") then
        match properties.lookup ("LaunchTemplateData") with
        | some (CFValue.map ltd) =>
          (match ltd.lookup ("BlockDeviceMappings") with
           | some (CFValue.list l) => l
           | _ => [])
        | _ => []
      else direct
    (block_devices.enum).filterMap (fun p =>
      match p.2 with
      | CFValue.map mapping =>
        (match mapping.lookup ("Ebs") with
         | some (CFValue.map ebs_props) =>
           let volume_size : Int :=
             match ebs_props.lookup ("VolumeSize") with
             | some (CFValue.num n) => n
             | _ => 0
           let volume_type :=
             match ebs_props.lookup ("VolumeType") with
             | some (CFValue.str s) => s
             | _ => ("gp2")
           if 0 < volume_size then
             some (mkCfEbsResource (resource_name ++ ("_ebs_") ++ toString p.1)
               volume_size.toNat volume_type)
           else none
         | _ => none)
      | _ => none)
  else []

/-- Resources walk of _extract_cloudformation_resources over a parsed
template tree: for each entry of the Resources map append the main record
(internal type, extracted instance type, properties, original type) and
then its synthesized EBS volumes. A document that is not a map, or whose
Resources value is not a map, contributes nothing (the source raises and
its enclosing except swallows the error with the list still empty). -/
def extract_from_data (data : CFValue)
    (parameters : List (String × CFValue)) : List Resource :=
  match data with
  | CFValue.map m =>
    let cf_resources :=
      match m.lookup ("Resources") with
      | some (CFValue.map rs) => rs
      | _ => []
    (cf_resources.map (fun p =>
      let resource_name := p.1
      let resource_data := match p.2 with | CFValue.map rd => rd | _ => []
      let cf_resource_type :=
        match resource_data.lookup ("Type") with
        | some (CFValue.str s) => s
        | _ => ""
      let properties :=
        match resource_data.lookup ("Properties") with
        | some (CFValue.map pm) => pm
        | _ => []
      let internal_type := convert_cf_type_to_internal cf_resource_type
      let it := extract_cf_instance_type properties parameters
      mkCfResource internal_type resource_name it properties cf_resource_type ::
        cf_block_device_resources resource_name cf_resource_type properties)).flatten
  | _ => []

/-- CostAnalyzer._extract_cloudformation_resources: YAML first, JSON as
fallback; when both parses fail the re-raised YAML error is swallowed by
the enclosing except and the (still empty) resource list is returned. -/
def extract_cloudformation_resources
    (parseYaml parseJson : String → Option CFValue) (content : String)
    (parameters : List (String × CFValue)) : List Resource :=
  match parseYaml content with
  | some data => extract_from_data data parameters
  | none =>
    match parseJson content with
    | some data => extract_from_data data parameters
    | none => []

/-- CostAnalyzer.analyze_terraform, with the SafeLoader registry threaded
for comparison with the CloudFormation path: the Terraform path never
touches the yaml module, so the registry is returned unchanged. -/
def analyze_terraform (a : CostAnalyzer) (registry : Bool)
    (content : String) : List CostBreakdown × CostAnalyzer × Bool :=
  let resources := extract_terraform_resources content
  let p := a.calculate_costs_state resources
  (p.1, p.2, registry)

/-- CostAnalyzer.analyze_cloudformation. The call performs
yaml.SafeLoader.add_multi_constructor on the process global SafeLoader
class (and _extract_cloudformation_resources repeats the registration),
so the returned registry state is unconditionally true. Parameters are
read from the Parameters map of the parsed template, empty on any parse
failure or non-map shape. -/
def analyze_cloudformation (parseYaml parseJson : String → Option CFValue)
    (a : CostAnalyzer) (_registry : Bool) (content : String) :
    List CostBreakdown × CostAnalyzer × Bool :=
  let registry2 := true
  let parameters :=
    match parseYaml content with
    | some (CFValue.map m) =>
      (match m.lookup ("Parameters") with
       | some (CFValue.map p) => p
       | _ => [])
    | _ => []
  let resources :=
    extract_cloudformation_resources parseYaml parseJson content parameters
  let p := a.calculate_costs_state resources
  (p.1, p.2, registry2)

/-- Nonnegativity of one price table entry. -/
def entryNonneg : CostEntry → Prop
  | CostEntry.scalar c => 0 ≤ c
  | CostEntry.table t => ∀ q ∈ t, 0 ≤ q.2

/-- Resolution of a Ref-valued size property against the declared template
parameters, as performed inside _extract_cf_instance_type: the str() of
the Default of a declared parameter, nothing otherwise. -/
def resolve_ref (parameters : List (String × CFValue)) (param_name : String) :
    Option String :=
  match parameters.lookup param_name with
  | some (CFValue.map param_config) =>
    (match param_config.lookup ("Default") with
     | some d => some (cfToStr d)
     | none => none)
  | some _ => none
  | none => none

/-- Names of the volume records synthesized by
extract_aws_ebs_from_terraform: the optional root volume, then one name
per sized ebs_block_device block carrying its zero-based enumerate index
over all matched blocks in source order. -/
def ebs_sub_resource_names (resource_body : String) (parent_name : String) :
    List String :=
  (match searchBlockBody (String.toList ("root_block_device")) resource_body.toList with
   | some blk =>
     if (searchAux (matchKeyEqNum (String.toList ("volume_size"))) blk).isSome then
       [parent_name ++ ("_root_volume")]
     else []
   | none => []) ++
  ((findBlocks (String.toList ("ebs_block_device")) resource_body.toList).enum).filterMap
    (fun p =>
      if (searchAux (matchKeyEqNum (String.toList ("volume_size"))) p.2).isSome then
        some (parent_name ++ ("_ebs_") ++ toString p.1)
      else none)

/-- Concrete GPU resource whose instance type matches a GPU prefix but has
no price entry: p3.4xlarge is absent from the aws_instance table while
p3.2xlarge, p3.8xlarge and p3.16xlarge are present. -/
def c1_gpu_resource : Resource :=
  mkTfResource ("aws_instance") ("gpu_box") (some ("p3.4xlarge")) ""

/-- Concrete resource with a flat positive integer price and a GPU-looking
instance type, used to exhibit an emitted breakdown whose GPU flag is
computed from the size attribute alone. -/
def c1_priced_gpu_resource : Resource :=
  mkTfResource ("aws_eks_cluster") ("gpu_cluster") (some ("p3.x")) ""

/-- Breakdown emitted for c1_priced_gpu_resource, transcribed field by
field from costBreakdownOf. -/
def c1_priced_gpu_breakdown : CostBreakdown :=
  ⟨("gpu_cluster"), ("aws_eks_cluster"), some ("p3.x"), 73,
   73 / dec 433 2, 73 / 30, 73 / 730, ("minimal"), true,
   ("Approximate cost in US East region"), some [⟨("service"), 73⟩], false⟩

/-- Concrete Terraform input declaring a free-service resource type. -/
def c3_tf_input : String :=
  "resource \"aws_security_group\" \"sg\" \x7b \x7d"

/-- Concrete Terraform input whose resource body contains one nested
attribute block followed by a further attribute. -/
def c4_failing_input : String :=
  "resource \"aws_instance\" \"x\" \x7b\n  instance_type = \"t3.large\"\n  root_block_device \x7b\n    volume_size = 50\n  \x7d\n  tags = \"env\"\n\x7d\n"

/-- Body text actually captured by the extractor on c4_failing_input: it
stops at the first closing brace inside the nested block, losing the rest
of the declaration. -/
def c4_truncated_body : String :=
  "\n  instance_type = \"t3.large\"\n  root_block_device \x7b\n    volume_size = 50\n  "

/-- Concrete resource with a flat positive integer price (EKS control
plane), used for breakdown membership witnesses. -/
def c8_eks_resource : Resource :=
  mkCfResource ("aws_eks_cluster") ("cluster") none [] ("AWS::EKS::Cluster")

/-- Breakdown emitted for c8_eks_resource, transcribed field by field from
costBreakdownOf. -/
def c8_eks_breakdown : CostBreakdown :=
  ⟨("cluster"), ("aws_eks_cluster"), none, 73,
   73 / dec 433 2, 73 / 30, 73 / 730, ("minimal"), false,
   ("Approximate cost in US East region"), some [⟨("service"), 73⟩], false⟩

/-- Concrete free-service CloudFormation resource. -/
def c8_free_resource : Resource :=
  mkCfResource ("aws_iam_role") ("role") none [] ("AWS::IAM::Role")

/-- Concrete non-free zero-cost resource (route tables price at 0 and the
Terraform path never sets a cf_type). -/
def c8_zero_resource : Resource :=
  mkTfResource ("aws_route_table") ("rt") none ""

/-- Helper: a decimal literal with nonnegative mantissa is nonnegative. -/
theorem dec_nonneg (n : Int) (d : Nat) (h : 0 ≤ n) : 0 ≤ dec n d := by
  unfold dec
  positivity

/-- Helper: a successful association list lookup returns the second
component of some member. -/
theorem lookup_gives_member {β : Type} :
    ∀ (l : List (String × β)) (k : String) (v : β),
      l.lookup k = some v → ∃ p, p ∈ l ∧ p.2 = v := by
  intro l
  induction l with
  | nil => intro k v h; simp [List.lookup] at h
  | cons hd tl ih =>
    intro k v h
    obtain ⟨k1, v1⟩ := hd
    rw [List.lookup] at h
    by_cases hk : k == k1
    · rw [hk] at h
      exact ⟨(k1, v1), List.mem_cons_self _ _, by simpa using h⟩
    · rw [Bool.of_not_eq_true hk] at h
      obtain ⟨p, hp, he⟩ := ih k v h
      exact ⟨p, List.mem_cons_of_mem _ hp, he⟩

/-- Helper: every entry of the AWS price table is nonnegative. -/
theorem aws_entries_nonneg :
    ∀ p ∈ AWS_COST_ESTIMATES, entryNonneg p.2 := by
  intro p hp
  fin_cases hp <;> simp only [entryNonneg] <;> norm_num [dec]

/-- Helper: the no-size fallback over a table of nonnegative rates is
nonnegative. -/
theorem table_no_size_cost_nonneg (t : List (String × Rat))
    (ht : ∀ q ∈ t, 0 ≤ q.2) : 0 ≤ (table_no_size_cost t).1 := by
  unfold table_no_size_cost
  cases hl : t.lookup ("standard") with
  | some s =>
    obtain ⟨p, hp, he⟩ := lookup_gives_member _ _ _ hl
    exact mul_nonneg (he ▸ ht p hp) (by norm_num)
  | none =>
    cases t with
    | nil => simp
    | cons p ps =>
      exact mul_nonneg (ht p (List.mem_cons_self _ _)) (by norm_num)

/-- Helper: _get_resource_cost_detailed never returns a negative monthly
cost. -/
theorem get_resource_cost_detailed_nonneg (rt : String) (it : Option String) :
    0 ≤ (get_resource_cost_detailed rt it).1 := by
  unfold get_resource_cost_detailed
  split
  · simp
  next cd h =>
    have hcd : entryNonneg cd := by
      obtain ⟨p, hp, he⟩ := lookup_gives_member _ _ _ h
      exact he ▸ aws_entries_nonneg p hp
    by_cases hs3 : rt = ("aws_s3_bucket")
    · rw [if_pos hs3]
      cases cd with
      | table t =>
        dsimp only
        refine mul_nonneg ?_ (by norm_num)
        cases hl : t.lookup ("standard") with
        | some s =>
          obtain ⟨p, hp, he⟩ := lookup_gives_member _ _ _ hl
          simpa [hl] using he ▸ hcd p hp
        | none => simp only [hl, Option.getD]; exact dec_nonneg 23 3 (by norm_num)
      | scalar c =>
        dsimp only
        exact mul_nonneg (dec_nonneg 23 3 (by norm_num)) (by norm_num)
    · rw [if_neg hs3]
      cases cd with
      | table t =>
        have ht : ∀ q ∈ t, 0 ≤ q.2 := hcd
        cases it with
        | none => exact table_no_size_cost_nonneg t ht
        | some s =>
          dsimp only
          by_cases hse : s = ""
          · rw [if_pos hse]
            exact table_no_size_cost_nonneg t ht
          · rw [if_neg hse]
            dsimp only
            cases hl : t.lookup s with
            | some c =>
              obtain ⟨p, hp, he⟩ := lookup_gives_member _ _ _ hl
              simpa [hl] using he ▸ ht p hp
            | none => simp [hl]
      | scalar c => exact hcd

/-- Helper: _get_ebs_cost_detailed never returns a negative monthly
cost. -/
theorem get_ebs_cost_detailed_nonneg (vt : String) (vs : Nat) :
    0 ≤ (get_ebs_cost_detailed vt vs).1 := by
  unfold get_ebs_cost_detailed
  split
  next t h =>
    have hcd : entryNonneg (CostEntry.table t) := by
      obtain ⟨p, hp, he⟩ := lookup_gives_member _ _ _ h
      exact he ▸ aws_entries_nonneg p hp
    have ht : ∀ q ∈ t, 0 ≤ q.2 := hcd
    cases t with
    | nil => simp
    | cons p ps =>
      dsimp only
      refine mul_nonneg ?_ (by positivity)
      cases hl : (p :: ps).lookup vt with
      | some c =>
        obtain ⟨q, hq, he⟩ := lookup_gives_member _ _ _ hl
        simpa [hl] using he ▸ ht q hq
      | none => simp [hl]
  next => simp

/-- Helper: the per-resource cost dispatch never returns a negative
monthly cost. -/
theorem resource_cost_nonneg (r : Resource) : 0 ≤ (resource_cost r).1 := by
  unfold resource_cost
  split
  · exact get_ebs_cost_detailed_nonneg _ _
  · exact get_resource_cost_detailed_nonneg _ _

/-- Helper: membership in the breakdown list comes from some resource of
the input whose loop body produced the breakdown. -/
theorem mem_calculate_costs {rs : List Resource} {b : CostBreakdown}
    (h : b ∈ calculate_costs rs) :
    ∃ r, r ∈ rs ∧ costBreakdownOf r = some b := by
  unfold calculate_costs at h
  exact List.mem_filterMap.mp h

/-- Helper: a breakdown is produced for a resource exactly when its
monthly cost is positive or it is a free service. -/
theorem costBreakdownOf_isSome (r : Resource) :
    (costBreakdownOf r).isSome = true ↔
      (0 < (resource_cost r).1 ∨ resource_is_free r = true) := by
  unfold costBreakdownOf
  split
  next hcond => simpa using hcond
  next hcond => simpa using hcond

/-- Helper: field contents of a produced breakdown in terms of its
resource. -/
theorem costBreakdownOf_fields (r : Resource) (b : CostBreakdown)
    (h : costBreakdownOf r = some b) :
    b.monthly_cost = (resource_cost r).1
    ∧ b.instance_type = r.instance_type
    ∧ b.is_gpu = is_gpu_instance (r.instance_type.getD (""))
    ∧ b.is_free_service = resource_is_free r
    ∧ b.cost_category =
        (if resource_is_free r then ("free")
         else determine_cost_category (resource_cost r).1) := by
  unfold costBreakdownOf at h
  split at h
  · injection h with h
    subst h
    exact ⟨rfl, rfl, rfl, rfl, rfl⟩
  · exact absurd h (by simp)

/-- Helper: a free-service resource always yields a breakdown, carrying
the free category and the looked-up monthly cost. -/
theorem costBreakdownOf_free (r : Resource) (hf : resource_is_free r = true) :
    ∃ b, costBreakdownOf r = some b ∧ b.cost_category = ("free")
      ∧ b.monthly_cost = (resource_cost r).1 ∧ b.is_free_service = true := by
  unfold costBreakdownOf
  rw [hf]
  rw [if_pos (Or.inr rfl)]
  exact ⟨_, rfl, by simp, rfl, rfl⟩

/-- Helper: a non-free resource with zero monthly cost yields no
breakdown. -/
theorem costBreakdownOf_none_of_zero (r : Resource)
    (hf : resource_is_free r = false) (hc : (resource_cost r).1 = 0) :
    costBreakdownOf r = none := by
  unfold costBreakdownOf
  rw [hf, hc]
  rw [if_neg (by simp)]

/-- C10: after _calculate_costs runs, the analyzer total equals the sum of
the monthly costs over exactly the breakdown records it stored and
returned (free zero-cost entries included in both), and
get_total_monthly_cost reports that value. -/
theorem c10_total_matches_breakdowns :
    ∀ (a : CostAnalyzer) (rs : List Resource),
      ((a.calculate_costs_state rs).2).get_total_monthly_cost
          = (((a.calculate_costs_state rs).1).map CostBreakdown.monthly_cost).sum
      ∧ ((a.calculate_costs_state rs).2).cost_breakdowns
          = (a.calculate_costs_state rs).1 := by
  intro a rs
  exact ⟨rfl, rfl⟩

/-- C5: when neither the YAML parse nor the JSON fallback parse of the
template succeeds, CloudFormation resource extraction returns the empty
list; the embedding is a total function, so no exception escapes. -/
theorem c5_total_parse_failure_empty :
    ∀ (parseYaml parseJson : String → Option CFValue) (content : String)
      (parameters : List (String × CFValue)),
      parseYaml content = none → parseJson content = none →
      extract_cloudformation_resources parseYaml parseJson content parameters
        = [] := by
  intro py pj content params hy hj
  unfold extract_cloudformation_resources
  rw [hy, hj]

/-- Witness for C5 at concrete failing parsers and concrete content. -/
theorem c5_witness :
    extract_cloudformation_resources (fun _ => none) (fun _ => none)
      ("this is not a template") [] = [] :=
  c5_total_parse_failure_empty (fun _ => none) (fun _ => none)
    ("this is not a template") [] rfl rfl

/-- C7 counterexample: the claim says a scan call modifies no process
global structure, but analyze_cloudformation registers the tag handler on
the shared SafeLoader registry: starting from an unregistered registry the
call leaves it registered. -/
theorem c7_counterexample :
    (analyze_cloudformation (fun _ => none) (fun _ => none)
        CostAnalyzer.init false ("")).2.2 ≠ false := by
  intro h
  exact Bool.noConfusion h

/-- C7 amended: per-instance analyzer state is fresh per call and the
Terraform path touches no global state, but every analyze_cloudformation
call mutates the process global SafeLoader tag registry by registering
the CloudFormation tag constructor (leaving it registered regardless of
the prior state). -/
theorem c7_registry_mutation :
    (∀ (parseYaml parseJson : String → Option CFValue) (a : CostAnalyzer)
        (g : Bool) (content : String),
        (analyze_cloudformation parseYaml parseJson a g content).2.2 = true)
    ∧ (∀ (a : CostAnalyzer) (g : Bool) (content : String),
        (analyze_terraform a g content).2.2 = g) :=
  ⟨fun _ _ _ _ _ => rfl, fun _ _ _ => rfl⟩

/-- C1 counterexample: p3.4xlarge matches the GPU prefix p3. and has no
aws_instance price entry, the record is not a free service, and the
analysis output contains no CostBreakdown for it at all (the claim
asserts a breakdown with is_gpu true and monthly cost 0 is present). -/
theorem c1_counterexample :
    is_gpu_instance ("p3.4xlarge") = true
    ∧ (resource_cost c1_gpu_resource).1 = 0
    ∧ resource_is_free c1_gpu_resource = false
    ∧ calculate_costs [c1_gpu_resource] = [] :=
  ⟨rfl, rfl, rfl, rfl⟩

/-- C1 amended: the GPU flag of every emitted breakdown is computed by
is_gpu_instance from the size attribute alone, independently of any price
lookup; however a non-free resource whose computed monthly cost is 0 (in
particular an unpriced GPU instance) is excluded from the output entirely
rather than reported with is_gpu true and monthly cost 0. -/
theorem c1_gpu_flag_independent :
    (∀ r : Resource, resource_is_free r = false → (resource_cost r).1 = 0 →
        calculate_costs [r] = [])
    ∧ (∀ (rs : List Resource) (b : CostBreakdown), b ∈ calculate_costs rs →
        b.is_gpu = is_gpu_instance (b.instance_type.getD (""))) := by
  constructor
  · intro r hf hc
    unfold calculate_costs
    rw [List.filterMap_cons, costBreakdownOf_none_of_zero r hf hc]
    rfl
  · intro rs b hb
    obtain ⟨r, _, he⟩ := mem_calculate_costs hb
    obtain ⟨_, hit, hgpu, _, _⟩ := costBreakdownOf_fields r b he
    rw [hgpu, hit]

/-- Witness for C1 amended: the unpriced GPU resource is dropped, and an
emitted breakdown (integer-priced EKS cluster with a GPU-looking instance
type) carries the GPU flag computed from its size attribute. -/
theorem c1_witness :
    calculate_costs [c1_gpu_resource] = []
    ∧ c1_priced_gpu_breakdown.is_gpu
        = is_gpu_instance (c1_priced_gpu_breakdown.instance_type.getD ("")) :=
  ⟨c1_gpu_flag_independent.1 c1_gpu_resource rfl rfl,
   c1_gpu_flag_independent.2 [c1_priced_gpu_resource] c1_priced_gpu_breakdown
     (List.mem_singleton_self _)⟩

/-- C2 counterexample: a size-keyed price table with size attribute None
does not yield cost 0; for aws_instance the engine falls back to the
first table value times 100, which is 850. -/
theorem c2_counterexample :
    (get_resource_cost_detailed ("aws_instance") none).1 ≠ 0 := by
  show dec 850 2 * 100 ≠ 0
  norm_num [dec]

/-- C2 amended: an unknown resource type resolves to cost 0, and a
size-keyed table with an unknown (truthy) size key resolves to cost 0,
with no exception in either case; but a size-keyed table with an absent
size resolves to the no-size fallback (standard tier times 100, else the
first table value times 100, else 0), not to 0 in general. -/
theorem c2_unresolved_cost_zero :
    (∀ (rt : String) (it : Option String),
        AWS_COST_ESTIMATES.lookup rt = none →
        (get_resource_cost_detailed rt it).1 = 0)
    ∧ (∀ (rt s : String) (t : List (String × Rat)),
        AWS_COST_ESTIMATES.lookup rt = some (CostEntry.table t) →
        rt ≠ ("aws_s3_bucket") → s ≠ "" → t.lookup s = none →
        (get_resource_cost_detailed rt (some s)).1 = 0)
    ∧ (∀ (rt : String) (t : List (String × Rat)),
        AWS_COST_ESTIMATES.lookup rt = some (CostEntry.table t) →
        rt ≠ ("aws_s3_bucket") →
        (get_resource_cost_detailed rt none).1 = (table_no_size_cost t).1) := by
  refine ⟨?_, ?_, ?_⟩
  · intro rt it h
    unfold get_resource_cost_detailed
    rw [h]
  · intro rt s t h hs3 hse hl
    unfold get_resource_cost_detailed
    rw [h]
    dsimp only
    simp [hs3, hse, hl]
  · intro rt t h hs3
    unfold get_resource_cost_detailed
    rw [h]
    dsimp only
    simp [hs3]

/-- Witness for C2 amended: an unknown type costs 0, an unknown size key
costs 0, and the aws_instance table with no size falls back to its first
entry times 100. -/
theorem c2_witness :
    (get_resource_cost_detailed ("aws_warp_drive") none).1 = 0
    ∧ (get_resource_cost_detailed ("aws_instance") (some ("t9.mega"))).1 = 0
    ∧ (get_resource_cost_detailed ("aws_instance") none).1 = dec 850 2 * 100 := by
  refine ⟨?_, ?_, ?_⟩
  · exact c2_unresolved_cost_zero.1 ("aws_warp_drive") none rfl
  · exact c2_unresolved_cost_zero.2.1 ("aws_instance") ("t9.mega") _ rfl
      (by decide) (by decide) rfl
  · exact c2_unresolved_cost_zero.2.2 ("aws_instance") _ rfl (by decide)

set_option maxRecDepth 8000 in
/-- C3 counterexample: a Terraform-path resource of an always-free type
(security group) is extracted, yet the analysis emits no CostBreakdown
for it at all — Terraform records carry no cf_type, so the free-service
check never fires and the zero-cost record is silently dropped instead of
being reported with the free category. -/
theorem c3_counterexample :
    extract_terraform_resources c3_tf_input
        = [mkTfResource ("aws_security_group") ("sg") none (" ")]
    ∧ (analyze_terraform CostAnalyzer.init false c3_tf_input).1 = [] :=
  ⟨rfl, rfl⟩

/-- C3 amended: only CloudFormation-path resources are free-flagged: a
resource whose original CloudFormation type is in the always-free set is
always emitted with cost category free and monthly cost 0 (for every
declared free type the internal type prices at 0 or misses the table, for
any instance type); Terraform-path resources of free types are never
flagged free and, costing 0, are excluded from the output entirely. -/
theorem c3_free_service_reporting :
    ∀ cf_type, cf_type ∈ free_services →
      ∀ (name : String) (it : Option String),
        (calculate_costs
            [mkCfResource (convert_cf_type_to_internal cf_type) name it [] cf_type]).map
            (fun b => (b.cost_category, b.monthly_cost, b.is_free_service))
          = [(("free"), (0 : Rat), true)] := by
  intro cf_type hcf name it
  fin_cases hcf <;> rfl

/-- Witness for C3 amended at the security group type. -/
theorem c3_witness :
    (calculate_costs
        [mkCfResource (convert_cf_type_to_internal ("AWS::EC2::SecurityGroup"))
          ("sg") none [] ("AWS::EC2::SecurityGroup")]).map
        (fun b => (b.cost_category, b.monthly_cost, b.is_free_service))
      = [(("free"), (0 : Rat), true)] :=
  c3_free_service_reporting ("AWS::EC2::SecurityGroup")
    (List.Mem.head _) ("sg") none

set_option maxRecDepth 8000 in
/-- C4, evaluated at the failing input: the captured body stops at the
first closing brace inside the nested root_block_device block — the text
after it (the tags attribute) is lost and the nested block is left
unclosed in the captured body, refuting whole-body capture. -/
theorem c4_nested_block_truncated :
    (extract_terraform_resources c4_failing_input).map Resource.body
        = [c4_truncated_body]
    ∧ isSubstring (String.toList ("tags")) c4_truncated_body.toList = false
    ∧ c4_truncated_body.toList.contains rbrace = false :=
  ⟨rfl, rfl, rfl⟩

/-- C6: for a properties map whose only size key holds a Ref to a
parameter, resolution returns the str() of the declared Default when one
exists (stated for scalar defaults, where str() is modelled exactly), and
returns None without error when the parameter is undeclared or has no
Default. -/
theorem c6_ref_parameter_resolution :
    ∀ key, key ∈ instance_type_keys →
      ∀ (p : String) (parameters : List (String × CFValue))
        (pc : List (String × CFValue)) (d : CFValue),
        (parameters.lookup p = some (CFValue.map pc) →
          pc.lookup ("Default") = some d → d.isScalar = true →
          extract_cf_instance_type
            [(key, CFValue.map [(("Ref"), CFValue.str p)])] parameters
            = some (cfToStr d))
        ∧ (parameters.lookup p = none →
          extract_cf_instance_type
            [(key, CFValue.map [(("Ref"), CFValue.str p)])] parameters
            = none)
        ∧ (parameters.lookup p = some (CFValue.map pc) →
          pc.lookup ("Default") = none →
          extract_cf_instance_type
            [(key, CFValue.map [(("Ref"), CFValue.str p)])] parameters
            = none) := by
  intro key hk p parameters pc d
  have hcan :
      extract_cf_instance_type
          [(key, CFValue.map [(("Ref"), CFValue.str p)])] parameters
        = resolve_ref parameters p := by
    fin_cases hk <;> rfl
  refine ⟨?_, ?_, ?_⟩
  · intro h1 h2 _
    rw [hcan]
    unfold resolve_ref
    rw [h1]
    dsimp only
    rw [h2]
  · intro h1
    rw [hcan]
    unfold resolve_ref
    rw [h1]
  · intro h1 h2
    rw [hcan]
    unfold resolve_ref
    rw [h1]
    dsimp only
    rw [h2]

/-- Witness for C6: InstanceType referring to a parameter with default
t3.micro resolves to t3.micro; with no declared parameters it resolves to
None. -/
theorem c6_witness :
    extract_cf_instance_type
        [(("InstanceType"), CFValue.map [(("Ref"), CFValue.str ("InstType"))])]
        [(("InstType"), CFValue.map [(("Default"), CFValue.str ("t3.micro"))])]
      = some ("t3.micro")
    ∧ extract_cf_instance_type
        [(("InstanceType"), CFValue.map [(("Ref"), CFValue.str ("InstType"))])]
        [] = none :=
  ⟨(c6_ref_parameter_resolution ("InstanceType") (List.Mem.head _) ("InstType")
      [(("InstType"), CFValue.map [(("Default"), CFValue.str ("t3.micro"))])]
      [(("Default"), CFValue.str ("t3.micro"))] (CFValue.str ("t3.micro"))).1
      rfl rfl rfl,
   (c6_ref_parameter_resolution ("InstanceType") (List.Mem.head _) ("InstType")
      [] [] CFValue.null).2.1 rfl⟩

/-- C8: every emitted CostBreakdown has nonnegative monthly cost; a
resource yields a breakdown exactly when its computed monthly cost is
positive or it is a free service; a free service is always included with
cost category free (at its looked-up cost, zero for every type the free
check accepts per c3_free_service_reporting); and a non-free resource
with unresolvable price (cost 0) is excluded. -/
theorem c8_breakdown_invariants :
    (∀ (rs : List Resource) (b : CostBreakdown), b ∈ calculate_costs rs →
        0 ≤ b.monthly_cost)
    ∧ (∀ r : Resource, (costBreakdownOf r).isSome = true ↔
        (0 < (resource_cost r).1 ∨ resource_is_free r = true))
    ∧ (∀ r : Resource, resource_is_free r = true →
        ∃ b, costBreakdownOf r = some b ∧ b.cost_category = ("free")
          ∧ b.monthly_cost = (resource_cost r).1 ∧ b.is_free_service = true)
    ∧ (∀ r : Resource, resource_is_free r = false →
        (resource_cost r).1 = 0 → costBreakdownOf r = none) := by
  refine ⟨?_, costBreakdownOf_isSome, costBreakdownOf_free,
    costBreakdownOf_none_of_zero⟩
  intro rs b hb
  obtain ⟨r, _, he⟩ := mem_calculate_costs hb
  obtain ⟨hmc, _, _, _, _⟩ := costBreakdownOf_fields r b he
  rw [hmc]
  exact resource_cost_nonneg r

/-- Witness for C8: a concrete emitted breakdown has nonnegative cost, a
free resource is emitted, and a non-free zero-cost resource is not. -/
theorem c8_witness :
    0 ≤ c8_eks_breakdown.monthly_cost
    ∧ (costBreakdownOf c8_free_resource).isSome = true
    ∧ costBreakdownOf c8_zero_resource = none :=
  ⟨c8_breakdown_invariants.1 [c8_eks_resource] c8_eks_breakdown
      (List.mem_singleton_self _),
   (c8_breakdown_invariants.2.1 c8_free_resource).mpr (Or.inr rfl),
   c8_breakdown_invariants.2.2.2 c8_zero_resource rfl rfl⟩

/-- C9: extraction is a pure function of the input text, so repeated runs
agree on both extraction paths; the names of the volume sub-resources
synthesized from a body are exactly the optional root volume followed by
one name per sized ebs_block_device block carrying its stable zero-based
enumerate index in source order; and re-running analyze_terraform on its
own output state reproduces the identical result triple. -/
theorem c9_deterministic_extraction :
    (∀ content : String,
        extract_terraform_resources content
          = extract_terraform_resources content)
    ∧ (∀ (parseYaml parseJson : String → Option CFValue) (content : String)
        (parameters : List (String × CFValue)),
        extract_cloudformation_resources parseYaml parseJson content parameters
          = extract_cloudformation_resources parseYaml parseJson content parameters)
    ∧ (∀ (resource_body parent_name : String),
        (extract_aws_ebs_from_terraform resource_body parent_name).map
            Resource.name
          = ebs_sub_resource_names resource_body parent_name)
    ∧ (∀ (a : CostAnalyzer) (g : Bool) (content : String),
        analyze_terraform (analyze_terraform a g content).2.1
            (analyze_terraform a g content).2.2 content
          = analyze_terraform a g content) := by
  refine ⟨fun _ => rfl, fun _ _ _ _ => rfl, ?_, fun _ _ _ => rfl⟩
  intro resource_body parent_name
  unfold extract_aws_ebs_from_terraform ebs_sub_resource_names
  rw [List.map_append]
  congr 1
  · cases searchBlockBody (String.toList ("root_block_device"))
        resource_body.toList with
    | none => rfl
    | some blk =>
      dsimp only
      cases searchAux (matchKeyEqNum (String.toList ("volume_size"))) blk with
      | none => rfl
      | some sz => rfl
  · rw [List.map_filterMap]
    apply List.filterMap_congr
    intro p _
    cases searchAux (matchKeyEqNum (String.toList ("volume_size"))) p.2 with
    | none => rfl
    | some sz => rfl
